import Mathlib

/-!
Shallow embedding of tarpc's client transport layer (`src/src/client.rs`):
the `Client` service wrapper and its error-flattening `call`, the blocking
(`sync::Connect`) and non-blocking (`future::Connect`) connection machinery,
and the one-shot hand-off between the reactor thread and the caller.

Rust `Result<T, E>` is embedded as `Except E T`; a future is embedded by the
value it resolves to; a `futures::Oneshot` by an explicit state type; a panic
by `Option` (`none` = panic).
-/

namespace Tarpc

/-- Kinds of `std::io::Error` this development distinguishes. -/
inductive IoErrorKind : Type
  | AddrNotAvailable
  | ConnectionRefused
  | Other
  deriving DecidableEq

/-- Model of `std::io::Error`: an error kind plus a message, mirroring
`io::Error::new(kind, msg)`. -/
structure IoError : Type where
  kind : IoErrorKind
  msg : String
  deriving DecidableEq

/-- Model of `bincode::serde::DeserializeError` (opaque payload). -/
structure DeserializeError : Type where
  msg : String
  deriving DecidableEq

/-- Modelled from the spec: `WireError<E>` is this repository's code outside
`src/` (`src/src/client.rs` only imports it with `use WireError;`). Spec
section 4.1: a response-embedded error, either the server's own application
error or a signal that the server failed to decode the request. -/
inductive WireError (E : Type) : Type
  | ServerDeserialize (msg : String)
  | App (e : E)
  deriving DecidableEq

/-- Modelled from the spec: the client-visible `Error<E>` (referred to as
`::Error` in `src/src/client.rs`) is this repository's code outside `src/`.
Spec section 4.1 gives the four variants: transport failure, local
response-decode failure, remote request-decode failure, application error. -/
inductive Error (E : Type) : Type
  | Io (e : IoError)
  | ClientDeserialize (e : DeserializeError)
  | ServerDeserialize (msg : String)
  | App (e : E)
  deriving DecidableEq

/-- Modelled from the spec: the `From<WireError<E>>` conversion used as
`::Error::from` in `call`, mapping the server-reported application error to
`App` and the server-side decode failure to `ServerDeserialize`. -/
def Error.fromWire {E : Type} : WireError E → Error E
  | .ServerDeserialize m => .ServerDeserialize m
  | .App e => .App e

/-- Model of the external `tokio_proto::pipeline::Client` handle stored in
`Client.inner`: a shared-ownership handle onto one underlying channel,
identified by `chanId`. The channel collaborator's contract (spec sections 3
and 6) fixes that cloning the handle shares the same underlying channel. -/
structure Channel (Req Resp E : Type) : Type where
  chanId : Nat
  deriving DecidableEq

/-- Cloning the pipeline handle yields a handle onto the same channel
(shared ownership, not duplication of the connection). -/
def Channel.clone {Req Resp E : Type} (ch : Channel Req Resp E) : Channel Req Resp E :=
  ch

/-- `Client<Req, Resp, E>` from `src/src/client.rs`: wraps a
`pipeline::Client` handle. -/
structure Client (Req Resp E : Type) : Type where
  inner : Channel Req Resp E
  deriving DecidableEq

/-- `impl Clone for Client` (`src/src/client.rs` lines 28-32):
`Client { inner: self.inner.clone() }`. -/
def Client.clone {Req Resp E : Type} (c : Client Req Resp E) : Client Req Resp E :=
  { inner := c.inner.clone }

/-- Model of `futures::Async`. -/
inductive Async (α : Type) : Type
  | Ready (a : α)
  | NotReady
  deriving DecidableEq

/-- `Client::poll_ready` (`src/src/client.rs` lines 44-46): unconditionally
`Async::Ready(())`. -/
def Client.poll_ready {Req Resp E : Type} (_c : Client Req Resp E) : Async Unit :=
  Async.Ready ()

/-- `Client::call` (`src/src/client.rs` lines 48-54), as the transformation it
applies to the outcome of the inner channel call. The inner future resolves on
its item side to `Result<Result<Resp, WireError<E>>, DeserializeError>` and on
its error side to `io::Error`; `call` applies
`.map(|r| r.map(|r| r.map_err(Error::from)).map_err(Error::ClientDeserialize).and_then(|r| r))`,
and `Future::map` transforms only the item side, leaving the `io::Error`
channel untouched. -/
def Client.call {Req Resp E : Type} (_c : Client Req Resp E) (_req : Req)
    (raw : Except IoError (Except DeserializeError (Except (WireError E) Resp))) :
    Except IoError (Except (Error E) Resp) :=
  raw.map (fun r =>
    ((r.map (fun r => r.mapError Error.fromWire)).mapError Error.ClientDeserialize).bind
      (fun r => r))

/-- The flattening as the spec's words state it for claim C1: one pass from
the three-layer nested result to the flat four-case union, with the outer
transport failure mapped to `Error.Io`. Written from the spec, not from the
source, for comparison with `Client.call`. -/
def flattenSpec {Resp E : Type}
    (raw : Except IoError (Except DeserializeError (Except (WireError E) Resp))) :
    Except (Error E) Resp :=
  match raw with
  | .error ioe => .error (.Io ioe)
  | .ok (.error d) => .error (.ClientDeserialize d)
  | .ok (.ok (.error w)) => .error (Error.fromWire w)
  | .ok (.ok (.ok r)) => .ok r

/-- `impl fmt::Debug for Client` (`src/src/client.rs` lines 57-61): writes the
fixed string, independent of the handle's state. -/
def Client.debugFmt {Req Resp E : Type} (_c : Client Req Resp E) : String :=
  "Client \x7b .. \x7d"

/-- Model of one resolved socket address (opaque to this layer). -/
structure SocketAddr : Type where
  ip : Nat
  port : Nat
  deriving DecidableEq

/-- The error built by `sync::Connect::connect` when resolution yields no
addresses (`src/src/client.rs` lines 158-160). -/
def addrNotAvailableErr : IoError :=
  { kind := IoErrorKind.AddrNotAvailable
    msg := "`ToSocketAddrs::to_socket_addrs` returned an empty iterator." }

/-- What `sync::Connect::connect` does after address resolution: fail locally
with an `io::Error` (no delegation to the async connector, no network I/O),
or hand the single chosen address to `future::Connect::connect` and block on
`.wait()`. -/
inductive SyncAction : Type
  | fail (e : IoError)
  | delegateAndWait (a : SocketAddr)
  deriving DecidableEq

/-- First stage of `sync::Connect::connect` (`src/src/client.rs` lines
152-163): `try!(addr.to_socket_addrs())` propagates a resolution failure; an
empty iterator returns `addrNotAvailableErr`; otherwise `.next()` takes the
first resolved address, which is handed to the async connector. -/
def syncConnectAction (resolved : Except IoError (List SocketAddr)) : SyncAction :=
  match resolved with
  | .error e => .fail e
  | .ok [] => .fail addrNotAvailableErr
  | .ok (a :: _) => .delegateAndWait a

/-- Complete `sync::Connect::connect`: `asyncConnect a` is the outcome of
`<Self as future::Connect>::connect(&a).wait()` for the chosen address. -/
def syncConnect {Req Resp E : Type} (resolved : Except IoError (List SocketAddr))
    (asyncConnect : SocketAddr → Except IoError (Client Req Resp E)) :
    Except IoError (Client Req Resp E) :=
  match syncConnectAction resolved with
  | .fail e => .error e
  | .delegateAndWait a => asyncConnect a

/-- State of a `futures::Oneshot` pair (the spec's one-shot single-resolution
cross-thread future): not yet completed, completed with a value, or sender
dropped without completing (observed as `Canceled` on the read side). -/
inductive OneshotState (α : Type) : Type
  | pending
  | resolved (a : α)
  | canceled
  deriving DecidableEq

/-- `ClientFuture::poll` (`src/src/client.rs` lines 95-101). `inner.poll()`
yields `Ok(Async::NotReady)` while pending, `Ok(Async::Ready(v))` once
completed, and `Err(Canceled)` if the sender was dropped; the `.unwrap()`
panics in the last case, modelled as `none`. Otherwise the double result is
flattened: `Ready(Ok(client))` to ready, `Ready(Err(err))` to the future's
error. -/
def ClientFuture.poll {Req Resp E : Type}
    (st : OneshotState (Except IoError (Client Req Resp E))) :
    Option (Except IoError (Async (Client Req Resp E))) :=
  match st with
  | .pending => some (.ok .NotReady)
  | .resolved (.ok client) => some (.ok (.Ready client))
  | .resolved (.error err) => some (.error err)
  | .canceled => none

/-- Model of the raw TCP connection produced by `TcpStream::connect`
(opaque). -/
structure TcpStream : Type where
  sock : Nat
  deriving DecidableEq

/-- The reactor-side chain spawned by `future::Connect::connect`
(`src/src/client.rs` lines 116-127), up to the final `then`:
`TcpStream::connect(&addr, handle).and_then(|tcp| { let c = try!(pipeline::connect(..)); Ok(Client { inner: c }) })`.
`tcpResult` is the outcome of the TCP connect to the given address and
`pipelineConnect` the outcome of `pipeline::connect` over the framed
stream. -/
def reactorWork {Req Resp E : Type} (tcpResult : Except IoError TcpStream)
    (pipelineConnect : TcpStream → Except IoError (Channel Req Resp E)) :
    Except IoError (Client Req Resp E) :=
  tcpResult.bind (fun tcp => (pipelineConnect tcp).map (fun c => { inner := c }))

/-- The complete spawned task: the trailing
`.then(|client| Ok(tx.complete(client)))` receives the chain's `Result` on
every path, success or failure, and completes the one-shot with it, so the
task always turns the one-shot into a resolved one. -/
def spawnedTask {Req Resp E : Type} (tcpResult : Except IoError TcpStream)
    (pipelineConnect : TcpStream → Except IoError (Channel Req Resp E))
    (_st : OneshotState (Except IoError (Client Req Resp E))) :
    OneshotState (Except IoError (Client Req Resp E)) :=
  OneshotState.resolved (reactorWork tcpResult pipelineConnect)

/-- `future::Connect::connect` (`src/src/client.rs` lines 113-129) creates a
fresh one-shot pair, spawns the task on the reactor (fire-and-forget), and
returns at once a `ClientFuture` over the read side; at return time the
one-shot is still pending, since the reactor has not yet run the task. -/
def futureConnectInitialState {Req Resp E : Type} (_addr : SocketAddr) :
    OneshotState (Except IoError (Client Req Resp E)) :=
  OneshotState.pending

/-- A concrete `io::Error` for a refused TCP connection. -/
def refusedErr : IoError :=
  { kind := IoErrorKind.ConnectionRefused, msg := "Connection refused" }

/-- Concrete `pipeline::connect` outcome used by witnesses. -/
def pc0 : TcpStream → Except IoError (Channel Nat Nat Nat) :=
  fun _ => Except.ok { chanId := 0 }

/-- Concrete one-shot resolution used by witnesses. -/
def r0 : Except IoError (Client Nat Nat Nat) :=
  Except.ok { inner := { chanId := 0 } }

end Tarpc

namespace Tarpc

/-- C1, counterexample: the claim says the outer transport failure is mapped
to `Error::Io` and the intermediate nesting is never exposed; but on a
transport failure `Client::call` propagates the raw `io::Error` on the
future's own error channel, unchanged and outside the four-case union, so no
`Error.Io` value is ever produced and one layer of nesting remains. -/
theorem call_io_not_flattened_counterexample :
    @Client.call Nat Nat Nat ⟨⟨0⟩⟩ 0 (Except.error refusedErr) = Except.error refusedErr
    ∧ @Client.call Nat Nat Nat ⟨⟨0⟩⟩ 0 (Except.error refusedErr)
        ≠ Except.ok (Except.error (Error.Io refusedErr))
    ∧ @Client.call Nat Nat Nat ⟨⟨0⟩⟩ 0 (Except.error refusedErr)
        ≠ Except.ok (flattenSpec (Except.error refusedErr)) := by
  refine ⟨rfl, fun h => Except.noConfusion h, fun h => Except.noConfusion h⟩

/-- C1, amended: `Client::call` flattens the inner two layers in one pass —
a local decode failure to `Error::ClientDeserialize`, `WireError::App` to
`Error::App`, `WireError::ServerDeserialize` to `Error::ServerDeserialize` —
while an outer transport failure is not mapped to `Error::Io` but propagated
unchanged as the future's `io::Error`, so the public contract is a future of
`Result<Resp, Error<E>>` with `io::Error` as its error channel. -/
theorem call_flattens_inner_layers {Req Resp E : Type} (c : Client Req Resp E)
    (req : Req) (ioe : IoError) (d : DeserializeError) (m : String) (e : E) (r : Resp) :
    Client.call c req (Except.error ioe) = Except.error ioe
    ∧ Client.call c req (Except.ok (Except.error d))
        = Except.ok (Except.error (Error.ClientDeserialize d))
    ∧ Client.call c req (Except.ok (Except.ok (Except.error (WireError.ServerDeserialize m))))
        = Except.ok (Except.error (Error.ServerDeserialize m))
    ∧ Client.call c req (Except.ok (Except.ok (Except.error (WireError.App e))))
        = Except.ok (Except.error (Error.App e))
    ∧ Client.call c req (Except.ok (Except.ok (Except.ok r))) = Except.ok (Except.ok r) :=
  ⟨rfl, rfl, rfl, rfl, rfl⟩

/-- C2: when address resolution yields zero socket addresses, synchronous
connect fails immediately with the address-unavailable error; the chosen
action is a local failure, not a delegation, so the result is the same for
every possible async connector and no network I/O happens. -/
theorem sync_connect_empty_resolution {Req Resp E : Type}
    (asyncConnect : SocketAddr → Except IoError (Client Req Resp E)) :
    syncConnectAction (Except.ok []) = SyncAction.fail addrNotAvailableErr
    ∧ addrNotAvailableErr.kind = IoErrorKind.AddrNotAvailable
    ∧ syncConnect (Except.ok []) asyncConnect = Except.error addrNotAvailableErr :=
  ⟨rfl, rfl, rfl⟩

/-- C3: when resolution yields one or more addresses, synchronous connect
delegates exactly the first resolved address to the asynchronous connector —
whatever the remaining entries are, they are never used — and returns the
(blocked-on) outcome of that async connect. -/
theorem sync_connect_uses_first_address {Req Resp E : Type} (a : SocketAddr)
    (rest : List SocketAddr)
    (asyncConnect : SocketAddr → Except IoError (Client Req Resp E)) :
    syncConnectAction (Except.ok (a :: rest)) = SyncAction.delegateAndWait a
    ∧ syncConnect (Except.ok (a :: rest)) asyncConnect = asyncConnect a :=
  ⟨rfl, rfl⟩

/-- C4: for every client handle, in every state, `poll_ready` is immediately
`Async::Ready(())`; the wrapper never signals backpressure. -/
theorem poll_ready_always_ready {Req Resp E : Type} (c : Client Req Resp E) :
    c.poll_ready = Async.Ready () :=
  rfl

/-- C5: cloning a client copies the shared handle, so a clone holds exactly
the same underlying channel as the original — same handle, same channel
identity — never a duplicated connection. -/
theorem clone_shares_channel {Req Resp E : Type} (c : Client Req Resp E) :
    c.clone.inner = c.inner ∧ c.clone.inner.chanId = c.inner.chanId :=
  ⟨rfl, rfl⟩

/-- C6: asynchronous connect returns at once a future over the still-pending
one-shot, whose poll reports not-ready while the one-shot is unresolved,
yields `Ready(client)` when it resolved with `Ok(client)`, and yields
`Err(error)` when it resolved with `Err(error)` — the one-shot's double
result is flattened. -/
theorem connect_future_poll_flattens {Req Resp E : Type} (addr : SocketAddr)
    (client : Client Req Resp E) (e : IoError) :
    ClientFuture.poll (futureConnectInitialState addr)
      = some (Except.ok (Async.NotReady (α := Client Req Resp E)))
    ∧ ClientFuture.poll (OneshotState.resolved (Except.ok client))
        = some (Except.ok (Async.Ready client))
    ∧ ClientFuture.poll (OneshotState.resolved (Except.error (α := Client Req Resp E) e))
        = some (Except.error e) :=
  ⟨rfl, rfl, rfl⟩

/-- C7: the reactor-side task resolves the one-shot on every exit path — for
every outcome of the TCP connect and of the channel construction, success or
failure, the one-shot ends resolved with the chain's result, never left
pending and never dropped (canceled). -/
theorem spawned_task_always_resolves {Req Resp E : Type}
    (tcpResult : Except IoError TcpStream)
    (pipelineConnect : TcpStream → Except IoError (Channel Req Resp E))
    (st : OneshotState (Except IoError (Client Req Resp E))) :
    spawnedTask tcpResult pipelineConnect st
      = OneshotState.resolved (reactorWork tcpResult pipelineConnect)
    ∧ spawnedTask tcpResult pipelineConnect st ≠ OneshotState.pending
    ∧ spawnedTask tcpResult pipelineConnect st ≠ OneshotState.canceled :=
  ⟨rfl, fun h => OneshotState.noConfusion h, fun h => OneshotState.noConfusion h⟩

/-- C8: when the TCP connect to a non-listening address fails with
connection-refused, the reactor task resolves the one-shot with that error
and the very next poll of the connect future returns it — a definite answer
(`isSome`, no panic) that is not `NotReady` (no hang); moreover polling never
panics on any resolution of the one-shot. -/
theorem refused_connect_yields_error {Req Resp E : Type} (e : IoError)
    (pipelineConnect : TcpStream → Except IoError (Channel Req Resp E))
    (r : Except IoError (Client Req Resp E))
    (h : e.kind = IoErrorKind.ConnectionRefused) :
    ClientFuture.poll (spawnedTask (Except.error e) pipelineConnect OneshotState.pending)
      = some (Except.error e)
    ∧ (ClientFuture.poll
        (spawnedTask (Except.error e) pipelineConnect OneshotState.pending)).isSome = true
    ∧ ClientFuture.poll (OneshotState.resolved r) ≠ none := by
  refine ⟨rfl, rfl, ?_⟩
  cases r with
  | ok c => exact fun hc => Option.noConfusion hc
  | error err => exact fun hc => Option.noConfusion hc

/-- Witness for C8 at a concrete refused connection. -/
theorem refused_connect_yields_error_witness :
    ClientFuture.poll (spawnedTask (Except.error refusedErr) pc0 OneshotState.pending)
      = some (Except.error refusedErr)
    ∧ (ClientFuture.poll
        (spawnedTask (Except.error refusedErr) pc0 OneshotState.pending)).isSome = true
    ∧ ClientFuture.poll (OneshotState.resolved r0) ≠ none :=
  refused_connect_yields_error refusedErr pc0 r0 rfl

/-- C9: the debug representation of a client handle is the fixed string
`Client { .. }`, identical for every handle, leaking no channel state. -/
theorem debug_is_fixed_string {Req Resp E : Type} (c d : Client Req Resp E) :
    c.debugFmt = "Client \x7b .. \x7d" ∧ c.debugFmt = d.debugFmt :=
  ⟨rfl, rfl⟩

/-- C10: if the resolving side drops the one-shot without completing it, the
very next poll of the connect future panics (the `unwrap` of `Canceled`,
modelled as `none`) — it neither remains not-ready nor returns an error. -/
theorem canceled_oneshot_poll_panics {Req Resp E : Type} :
    @ClientFuture.poll Req Resp E OneshotState.canceled = none
    ∧ @ClientFuture.poll Req Resp E OneshotState.canceled
        ≠ some (Except.ok Async.NotReady)
    ∧ ∀ e : IoError,
        @ClientFuture.poll Req Resp E OneshotState.canceled ≠ some (Except.error e) :=
  ⟨rfl, fun h => Option.noConfusion h, fun _ h => Option.noConfusion h⟩

end Tarpc
